import Mathlib

/-!
Shallow embedding of `src/main.py`, a FastAPI backend with three POST
endpoints (blog posts, partner leads, contact messages), a blog listing
endpoint and a diagnostics endpoint, backed by a document store.

JSON values are modelled by `JVal`; a JSON object (a Python dict, and also a
stored document) is an association list `RawObj`.  Pydantic validation of the
`BlogPost` schema (main.py lines 22-29) is embedded field by field following
pydantic's JSON-mode semantics for the declared types: no type coercion for
`str` / `List[str]` fields, `max_length` enforced, defaults applied for
missing optional fields.  The `database` module (`db`, `create_document`,
`get_documents`) is not part of the sources; those functions are modelled
from the spec (section 4.2) and are marked as such.
-/

/-- A JSON value (the subset needed here: strings, numbers, booleans, null,
arrays).  A wrong-typed field in a request is represented by a `JVal`
constructor other than the declared one. -/
inductive JVal where
  | null : JVal
  | str (s : String) : JVal
  | num (n : Int) : JVal
  | bool (b : Bool) : JVal
  | arr (xs : List JVal) : JVal

/-- Boolean equality on JSON values (used by the store's equality filter). -/
def jeqv : JVal → JVal → Bool
  | JVal.null, JVal.null => true
  | JVal.str a, JVal.str b => a = b
  | JVal.num a, JVal.num b => a = b
  | JVal.bool a, JVal.bool b => a = b
  | JVal.arr [], JVal.arr [] => true
  | JVal.arr (x :: xs), JVal.arr (y :: ys) =>
      jeqv x y && jeqv (JVal.arr xs) (JVal.arr ys)
  | _, _ => false

/-- A JSON object / Python dict / stored document: an association list from
keys to JSON values (keys unique in practice; lookup takes the first hit). -/
abbrev RawObj := List (String × JVal)

/-- Dictionary lookup, `d.get(key)` returning `none` when the key is absent. -/
def rlookup : RawObj → String → Option JVal
  | [], _ => none
  | (k, v) :: rest, key => if k = key then some v else rlookup rest key

/-- Dictionary update `d[key] = v` (appends if the key is absent, as a Python
dict would). -/
def rset : RawObj → String → JVal → RawObj
  | [], k, v => [(k, v)]
  | (k1, v1) :: rest, k, v =>
      if k1 = k then (k1, v) :: rest else (k1, v1) :: rset rest k v

/-- The `BlogPost` pydantic model of main.py lines 22-29. -/
structure BlogPost where
  title : String
  slug : String
  excerpt : Option String
  content : String
  cover_image : Option String
  tags : List String
  lang : String
  deriving DecidableEq

/-- Field validator for `title : str = Field(..., max_length=180)`:
required, must be a JSON string, at most 180 characters; no coercion. -/
def fTitle (raw : RawObj) : Option String :=
  match rlookup raw "title" with
  | some (JVal.str s) => if s.length ≤ 180 then some s else none
  | _ => none

/-- Field validator for `slug : str = Field(..., max_length=200)`. -/
def fSlug (raw : RawObj) : Option String :=
  match rlookup raw "slug" with
  | some (JVal.str s) => if s.length ≤ 200 then some s else none
  | _ => none

/-- Field validator for `excerpt : Optional[str] = Field(None, max_length=300)`:
missing or null gives `none`; a string of at most 300 characters is kept. -/
def fExcerpt (raw : RawObj) : Option (Option String) :=
  match rlookup raw "excerpt" with
  | none => some none
  | some JVal.null => some none
  | some (JVal.str s) => if s.length ≤ 300 then some (some s) else none
  | some _ => none

/-- Field validator for `content : str`: required string, no length cap. -/
def fContent (raw : RawObj) : Option String :=
  match rlookup raw "content" with
  | some (JVal.str s) => some s
  | _ => none

/-- Field validator for `cover_image : Optional[str] = None`. -/
def fCover (raw : RawObj) : Option (Option String) :=
  match rlookup raw "cover_image" with
  | none => some none
  | some JVal.null => some none
  | some (JVal.str s) => some (some s)
  | some _ => none

/-- Extract a list of strings from a JSON array; fails if any element is not
a string (pydantic performs no element coercion for `List[str]`). -/
def getStrs : List JVal → Option (List String)
  | [] => some []
  | JVal.str s :: rest => (getStrs rest).map (fun l => s :: l)
  | _ :: _ => none

/-- Field validator for `tags : List[str] = []`: missing defaults to `[]`;
otherwise must be an array whose every element is a string. -/
def fTags (raw : RawObj) : Option (List String) :=
  match rlookup raw "tags" with
  | none => some []
  | some (JVal.arr xs) => getStrs xs
  | some _ => none

/-- Field validator for `lang : str = Field("en")`: missing defaults to
`"en"`; an explicit value must be a string (null is not allowed). -/
def fLang (raw : RawObj) : Option String :=
  match rlookup raw "lang" with
  | none => some "en"
  | some (JVal.str s) => some s
  | some _ => none

/-- The names of the fields that fail validation, in declaration order
(pydantic reports every offending field of a 422 response). -/
def badFields (raw : RawObj) : List String :=
  (if (fTitle raw).isNone then ["title"] else []) ++
  (if (fSlug raw).isNone then ["slug"] else []) ++
  (if (fExcerpt raw).isNone then ["excerpt"] else []) ++
  (if (fContent raw).isNone then ["content"] else []) ++
  (if (fCover raw).isNone then ["cover_image"] else []) ++
  (if (fTags raw).isNone then ["tags"] else []) ++
  (if (fLang raw).isNone then ["lang"] else [])

/-- Pydantic validation of a raw JSON object against the `BlogPost` schema:
either a validated instance or the list of offending field names. -/
def validateBlogPost (raw : RawObj) : Except (List String) BlogPost :=
  match fTitle raw, fSlug raw, fExcerpt raw, fContent raw,
        fCover raw, fTags raw, fLang raw with
  | some t, some sl, some ex, some c, some cv, some tg, some lg =>
      Except.ok ⟨t, sl, ex, c, cv, tg, lg⟩
  | _, _, _, _, _, _, _ => Except.error (badFields raw)

/-- The document store's contents: a list of (collection name, document)
pairs, in insertion order. -/
abbrev Store := List (String × RawObj)

/-- A document matches an equality filter when every filter entry is present
in the document with an equal value. -/
def matchesFilter (d : RawObj) (flt : RawObj) : Bool :=
  flt.all (fun kv => ((rlookup d kv.1).map (fun v => jeqv v kv.2)).getD false)

/-- Modelled from the spec: `database.create_document` (not under src/).
Spec 4.2: serializes the validated resource to the store's native document
shape and returns a newly assigned identifier; fails with a store error if
the underlying connection is unavailable.  The identifier is modelled as the
insertion index. -/
def create_document (coll : String) (doc : RawObj) (db : Option Store) :
    Except String (Store × Nat) :=
  match db with
  | none => Except.error "Database not available"
  | some st => Except.ok (st ++ [(coll, doc)], st.length)

/-- Modelled from the spec: `database.get_documents` (not under src/).
Spec 4.2: returns at most `limit` documents of the collection matching an
equality filter. -/
def get_documents (coll : String) (flt : RawObj) (limit : Nat) (st : Store) :
    List RawObj :=
  ((st.filter (fun cd => cd.1 = coll && matchesFilter cd.2 flt)).map
    Prod.snd).take limit

/-- Serialization of a validated `BlogPost` to the store's document shape
(pydantic `.dict()`: every declared field becomes a key; `None` becomes
JSON null). -/
def blogPostToDoc (p : BlogPost) : RawObj :=
  [("title", JVal.str p.title),
   ("slug", JVal.str p.slug),
   ("excerpt", (p.excerpt.map JVal.str).getD JVal.null),
   ("content", JVal.str p.content),
   ("cover_image", (p.cover_image.map JVal.str).getD JVal.null),
   ("tags", JVal.arr (p.tags.map JVal.str)),
   ("lang", JVal.str p.lang)]

/-- An HTTP-level outcome of a POST endpoint: 201 with the new id, a 422
validation response naming the offending fields, or a raised
`HTTPException(status, detail)`. -/
inductive ApiResp where
  | created (id : Nat) : ApiResp
  | unprocessable (fields : List String) : ApiResp
  | httpException (status : Nat) (detail : String) : ApiResp
  deriving DecidableEq

/-- The handler body of `POST /api/blog` (main.py lines 119-125), given the
outcome of the `create_document` call: on success `{id, ok}` with 201, on a
raised store error `HTTPException(status_code=500, detail=str(e))`. -/
def create_blog_post (ins : Except String Nat) : ApiResp :=
  match ins with
  | Except.ok i => ApiResp.created i
  | Except.error e => ApiResp.httpException 500 e

/-- The handler body of `POST /api/partners/leads` (main.py lines 129-135),
identical in shape to `create_blog_post`. -/
def create_partner_lead (ins : Except String Nat) : ApiResp :=
  match ins with
  | Except.ok i => ApiResp.created i
  | Except.error e => ApiResp.httpException 500 e

/-- The full `POST /api/blog` pipeline: FastAPI validates the JSON body
against `BlogPost` (a failure short-circuits to a 422 response and the
handler never runs), then the handler calls `create_document`.  Returns the
response together with the resulting store handle. -/
def post_blog (db : Option Store) (body : RawObj) : ApiResp × Option Store :=
  match validateBlogPost body with
  | Except.error fs => (ApiResp.unprocessable fs, db)
  | Except.ok post =>
      match create_document "blogpost" (blogPostToDoc post) db with
      | Except.error e => (ApiResp.httpException 500 e, db)
      | Except.ok (st, i) => (ApiResp.created i, some st)

/-- Defensive read-path reconstruction of one stored document (main.py lines
104-115): the dict is rebuilt with `d.get` defaults and passed to the
`BlogPost` constructor; a pydantic failure is swallowed and the record is
skipped (`except Exception: continue`). -/
def rebuildDoc (d : RawObj) : RawObj :=
  [("title", (rlookup d "title").getD (JVal.str "")),
   ("slug", (rlookup d "slug").getD (JVal.str "")),
   ("excerpt", (rlookup d "excerpt").getD JVal.null),
   ("content", (rlookup d "content").getD (JVal.str "")),
   ("cover_image", (rlookup d "cover_image").getD JVal.null),
   ("tags", (rlookup d "tags").getD (JVal.arr [])),
   ("lang", (rlookup d "lang").getD (JVal.str "en"))]

/-- The `try BlogPost(**...) except: continue` step for one document. -/
def reconstructBlogPost (d : RawObj) : Option BlogPost :=
  (validateBlogPost (rebuildDoc d)).toOption

/-- `GET /api/blog` (main.py lines 93-116): empty list when the store handle
is `None`; otherwise an equality filter on `lang` (Python truthiness: an
empty `lang` parameter adds no filter), a `get_documents` call, and
per-document defensive reconstruction, dropping records that fail. -/
def list_blog_posts (db : Option Store) (limit : Nat) (lang : Option String) :
    List BlogPost :=
  match db with
  | none => []
  | some st =>
      let flt : RawObj :=
        match lang with
        | some l => if l = "" then [] else [("lang", JVal.str l)]
        | none => []
      (get_documents "blogpost" flt limit st).filterMap reconstructBlogPost

/-- The behaviour of the global store handle as seen by `/test`:
`nameAttr` models `db.name if hasattr(db, 'name') else "✅ Connected"`
(`Except.error e` = the attribute access raises `e`; `Except.ok none` = no
`name` attribute), and `list_collection_names` models the
`db.list_collection_names()` call (`Except.error e` = it raises `e`). -/
structure DbHandle where
  nameAttr : Except String (Option String)
  list_collection_names : Except String (List String)

/-- The process environment, as read by `os.getenv("DATABASE_URL")` and
`os.getenv("DATABASE_NAME")`: `none` when the variable is unset. -/
structure Env where
  database_url : Option String
  database_name : Option String

/-- Python truthiness of `os.getenv(...)`: `None` and the empty string are
falsy. -/
def truthyEnv : Option String → Bool
  | none => false
  | some s => !(s = "")

/-- `GET /test` (main.py lines 58-89): a mutable response dict, a guarded
probe of the store handle whose exceptions are downgraded to status strings
(messages cut to 50 characters), and a final unconditional overwrite of
`database_url` / `database_name` from the environment. -/
def test_database (db : Option DbHandle) (env : Env) : RawObj :=
  let response : RawObj :=
    [("backend", JVal.str "✅ Running"),
     ("database", JVal.str "❌ Not Available"),
     ("database_url", JVal.null),
     ("database_name", JVal.null),
     ("connection_status", JVal.str "Not Connected"),
     ("collections", JVal.arr [])]
  let response :=
    match db with
    | none => rset response "database" (JVal.str "⚠️  Available but not initialized")
    | some d =>
        let response := rset response "database" (JVal.str "✅ Available")
        let response := rset response "database_url" (JVal.str "✅ Configured")
        match d.nameAttr with
        | Except.error e =>
            rset response "database" (JVal.str ("❌ Error: " ++ e.take 50))
        | Except.ok nm =>
            let response :=
              rset response "database_name" (JVal.str (nm.getD "✅ Connected"))
            let response := rset response "connection_status" (JVal.str "Connected")
            match d.list_collection_names with
            | Except.ok cols =>
                let response :=
                  rset response "collections" (JVal.arr ((cols.take 10).map JVal.str))
                rset response "database" (JVal.str "✅ Connected & Working")
            | Except.error e =>
                rset response "database"
                  (JVal.str ("⚠️  Connected but Error: " ++ e.take 50))
  let response :=
    rset response "database_url"
      (JVal.str (if truthyEnv env.database_url then "✅ Set" else "❌ Not Set"))
  rset response "database_name"
    (JVal.str (if truthyEnv env.database_name then "✅ Set" else "❌ Not Set"))

/-- The `/test` endpoint: the handler body never raises, so FastAPI always
answers HTTP 200 with the status record. -/
def test_endpoint (db : Option DbHandle) (env : Env) : Nat × RawObj :=
  (200, test_database db env)

/-! ### Helper lemmas -/

theorem getStrs_map (l : List String) : getStrs (l.map JVal.str) = some l := by
  induction l with
  | nil => rfl
  | cons a as ih => simp [getStrs, ih]

theorem validate_ok_fields {raw : RawObj} {p : BlogPost}
    (h : validateBlogPost raw = Except.ok p) :
    fTitle raw = some p.title ∧ fSlug raw = some p.slug ∧
    fExcerpt raw = some p.excerpt ∧ fContent raw = some p.content ∧
    fCover raw = some p.cover_image ∧ fTags raw = some p.tags ∧
    fLang raw = some p.lang := by
  unfold validateBlogPost at h
  split at h
  · cases h
    simp_all
  · cases h

theorem validate_error_of_title {raw : RawObj} (h : fTitle raw = none) :
    validateBlogPost raw = Except.error (badFields raw) ∧
    "title" ∈ badFields raw := by
  constructor
  · unfold validateBlogPost
    split
    · simp_all
    · rfl
  · simp [badFields, h]

theorem validate_error_of_tags {raw : RawObj} (h : fTags raw = none) :
    validateBlogPost raw = Except.error (badFields raw) ∧
    "tags" ∈ badFields raw := by
  constructor
  · unfold validateBlogPost
    split
    · simp_all
    · rfl
  · simp [badFields, h]

theorem fTitle_le {raw : RawObj} {t : String} (h : fTitle raw = some t) :
    rlookup raw "title" = some (JVal.str t) ∧ t.length ≤ 180 := by
  unfold fTitle at h
  split at h
  · split at h
    · cases h; simp_all
    · cases h
  · cases h

theorem fSlug_le {raw : RawObj} {t : String} (h : fSlug raw = some t) :
    rlookup raw "slug" = some (JVal.str t) ∧ t.length ≤ 200 := by
  unfold fSlug at h
  split at h
  · split at h
    · cases h; simp_all
    · cases h
  · cases h

theorem fExcerpt_le {raw : RawObj} {t : String}
    (h : fExcerpt raw = some (some t)) : t.length ≤ 300 := by
  unfold fExcerpt at h
  split at h
  · cases h
  · cases h
  · split at h
    · cases h; simp_all
    · cases h
  · cases h

/-- Everything a successful validation guarantees about the produced value:
the declared `max_length` caps hold. -/
theorem validate_ok_caps {raw : RawObj} {p : BlogPost}
    (h : validateBlogPost raw = Except.ok p) :
    p.title.length ≤ 180 ∧ p.slug.length ≤ 200 ∧
    ∀ s, p.excerpt = some s → s.length ≤ 300 := by
  obtain ⟨h1, h2, h3, -, -, -, -⟩ := validate_ok_fields h
  refine ⟨(fTitle_le h1).2, (fSlug_le h2).2, ?_⟩
  intro s hs
  rw [hs] at h3
  exact fExcerpt_le h3

/-- Round trip of one document: a `BlogPost` within the declared caps that is
serialized to the store and defensively reconstructed comes back intact. -/
theorem reconstruct_toDoc (p : BlogPost) (ht : p.title.length ≤ 180)
    (hs : p.slug.length ≤ 200)
    (he : ∀ s, p.excerpt = some s → s.length ≤ 300) :
    reconstructBlogPost (blogPostToDoc p) = some p := by
  obtain ⟨t, sl, ex, c, cv, tg, lg⟩ := p
  simp only at ht hs he
  have hr : rebuildDoc (blogPostToDoc ⟨t, sl, ex, c, cv, tg, lg⟩) =
      blogPostToDoc ⟨t, sl, ex, c, cv, tg, lg⟩ := by
    cases ex <;> cases cv <;> rfl
  unfold reconstructBlogPost
  rw [hr]
  have h1 : fTitle (blogPostToDoc ⟨t, sl, ex, c, cv, tg, lg⟩) = some t := by
    simp [fTitle, blogPostToDoc, rlookup, ht]
  have h2 : fSlug (blogPostToDoc ⟨t, sl, ex, c, cv, tg, lg⟩) = some sl := by
    simp [fSlug, blogPostToDoc, rlookup, hs]
  have h3 : fExcerpt (blogPostToDoc ⟨t, sl, ex, c, cv, tg, lg⟩) = some ex := by
    cases ex with
    | none => simp [fExcerpt, blogPostToDoc, rlookup]
    | some s => simp [fExcerpt, blogPostToDoc, rlookup, he s rfl]
  have h4 : fContent (blogPostToDoc ⟨t, sl, ex, c, cv, tg, lg⟩) = some c := by
    simp [fContent, blogPostToDoc, rlookup]
  have h5 : fCover (blogPostToDoc ⟨t, sl, ex, c, cv, tg, lg⟩) = some cv := by
    cases cv with
    | none => simp [fCover, blogPostToDoc, rlookup]
    | some s => simp [fCover, blogPostToDoc, rlookup]
  have h6 : fTags (blogPostToDoc ⟨t, sl, ex, c, cv, tg, lg⟩) = some tg := by
    simp [fTags, blogPostToDoc, rlookup, getStrs_map]
  have h7 : fLang (blogPostToDoc ⟨t, sl, ex, c, cv, tg, lg⟩) = some lg := by
    simp [fLang, blogPostToDoc, rlookup]
  unfold validateBlogPost
  rw [h1, h2, h3, h4, h5, h6, h7]
  rfl

theorem mem_get_documents_append (st : Store) (doc : RawObj) (limit : Nat)
    (hlim : st.length < limit) :
    doc ∈ get_documents "blogpost" [] limit (st ++ [("blogpost", doc)]) := by
  unfold get_documents
  rw [List.filter_append, List.map_append]
  have h1 : List.filter
      (fun cd => decide (cd.1 = "blogpost") && matchesFilter cd.2 ([] : RawObj))
      [("blogpost", doc)] = [("blogpost", doc)] := by
    simp [matchesFilter]
  rw [h1]
  have h2 : ((List.filter
      (fun cd => decide (cd.1 = "blogpost") && matchesFilter cd.2 ([] : RawObj))
      st).map Prod.snd ++ [("blogpost", doc)].map Prod.snd).length ≤ limit := by
    have := List.length_filter_le
      (fun cd => decide (cd.1 = "blogpost") && matchesFilter cd.2 ([] : RawObj)) st
    simp only [List.length_append, List.length_map, List.length_singleton]
    omega
  rw [List.take_of_length_le h2]
  exact List.mem_append_right _ (by simp)

/-- C1: a valid BlogPost payload, POSTed to /api/blog with the store
available, is written as a new document, and a subsequent GET /api/blog with
a sufficient limit and no lang filter returns a record whose fields all equal
the payload's. -/
theorem blog_write_read_roundtrip (st : Store) (body : RawObj) (p : BlogPost)
    (limit : Nat) (hv : validateBlogPost body = Except.ok p)
    (hlim : st.length < limit) :
    post_blog (some st) body =
      (ApiResp.created st.length, some (st ++ [("blogpost", blogPostToDoc p)])) ∧
    p ∈ list_blog_posts (some (st ++ [("blogpost", blogPostToDoc p)])) limit none := by
  obtain ⟨ht, hs, he⟩ := validate_ok_caps hv
  refine ⟨by simp [post_blog, hv, create_document], ?_⟩
  have hrec := reconstruct_toDoc p ht hs he
  have hmem := mem_get_documents_append st (blogPostToDoc p) limit hlim
  simp only [list_blog_posts]
  exact List.mem_filterMap.mpr ⟨blogPostToDoc p, hmem, hrec⟩

theorem blog_write_read_roundtrip_witness :
    post_blog (some []) [("title", JVal.str "t"), ("slug", JVal.str "t"),
        ("content", JVal.str "c")] =
      (ApiResp.created 0,
        some [("blogpost", blogPostToDoc ⟨"t", "t", none, "c", none, [], "en"⟩)]) ∧
    (⟨"t", "t", none, "c", none, [], "en"⟩ : BlogPost) ∈
      list_blog_posts
        (some [("blogpost", blogPostToDoc ⟨"t", "t", none, "c", none, [], "en"⟩)])
        10 none := by
  have h := blog_write_read_roundtrip []
    [("title", JVal.str "t"), ("slug", JVal.str "t"), ("content", JVal.str "c")]
    ⟨"t", "t", none, "c", none, [], "en"⟩ 10 (by rfl) (by decide)
  simpa using h

/-- C2 counterexample: a payload whose required `title` is the empty string
passes validation (pydantic enforces no `min_length` on these fields), so
"an input whose required string field is the empty string is rejected" is
false on this code. -/
theorem empty_required_string_accepted :
    validateBlogPost
      [("title", JVal.str ""), ("slug", JVal.str "s"), ("content", JVal.str "c")] =
      Except.ok ⟨"", "s", none, "c", none, [], "en"⟩ := rfl

/-- C2 (amended): validation succeeds only if every required field is
present with a value of the declared string type; non-emptiness is not
checked. -/
theorem validate_requires_presence (raw : RawObj) (p : BlogPost)
    (h : validateBlogPost raw = Except.ok p) :
    rlookup raw "title" = some (JVal.str p.title) ∧
    rlookup raw "slug" = some (JVal.str p.slug) ∧
    (∃ c, rlookup raw "content" = some (JVal.str c)) := by
  obtain ⟨h1, h2, -, h4, -, -, -⟩ := validate_ok_fields h
  refine ⟨(fTitle_le h1).1, (fSlug_le h2).1, ?_⟩
  unfold fContent at h4
  split at h4
  · cases h4; simp_all
  · cases h4

theorem validate_requires_presence_witness :
    rlookup [("title", JVal.str "t"), ("slug", JVal.str "s"),
      ("content", JVal.str "c")] "title" = some (JVal.str "t") ∧
    rlookup [("title", JVal.str "t"), ("slug", JVal.str "s"),
      ("content", JVal.str "c")] "slug" = some (JVal.str "s") ∧
    (∃ c, rlookup [("title", JVal.str "t"), ("slug", JVal.str "s"),
      ("content", JVal.str "c")] "content" = some (JVal.str c)) := by
  have h := validate_requires_presence
    [("title", JVal.str "t"), ("slug", JVal.str "s"), ("content", JVal.str "c")]
    ⟨"t", "s", none, "c", none, [], "en"⟩ (by rfl)
  simpa using h

/-- C3 counterexample: a stored blog document whose title has 181 characters
is NOT returned by the listing; `BlogPost(**...)` re-validates `max_length`
on the read path, the exception is swallowed and the record is dropped. -/
theorem oversized_stored_title_not_returned :
    list_blog_posts
      (some [("blogpost",
        [("title", JVal.str (String.mk (List.replicate 181 'a'))),
         ("slug", JVal.str "s"), ("content", JVal.str "c")])]) 10 none = [] := by
  set_option maxRecDepth 8192 in decide

/-- C3 (amended): on the read path the length caps ARE effectively enforced:
a stored document whose title exceeds 180 characters fails the defensive
reconstruction and is silently dropped from the listing. -/
theorem oversized_stored_title_dropped (d : RawObj) (t : String)
    (hl : rlookup d "title" = some (JVal.str t)) (ht : 180 < t.length) :
    reconstructBlogPost d = none ∧
    ∀ limit, list_blog_posts (some [("blogpost", d)]) limit none = [] := by
  have htitle : fTitle (rebuildDoc d) = none := by
    simp [fTitle, rebuildDoc, rlookup, hl, Nat.not_le.mpr ht]
  have hrec : reconstructBlogPost d = none := by
    rw [reconstructBlogPost, (validate_error_of_title htitle).1]
    rfl
  refine ⟨hrec, fun limit => ?_⟩
  simp only [list_blog_posts, get_documents]
  cases limit with
  | zero => rfl
  | succ n => simp [matchesFilter, hrec]

theorem oversized_stored_title_dropped_witness :
    reconstructBlogPost [("title", JVal.str (String.mk (List.replicate 181 'b')))] =
      none ∧
    ∀ limit, list_blog_posts
      (some [("blogpost",
        [("title", JVal.str (String.mk (List.replicate 181 'b')))])]) limit none = [] := by
  exact oversized_stored_title_dropped
    [("title", JVal.str (String.mk (List.replicate 181 'b')))]
    (String.mk (List.replicate 181 'b')) (by rfl)
    (by set_option maxRecDepth 8192 in decide)

/-- C4: no type coercion — a JSON number where `title : str` is declared
fails validation with "title" among the reported fields, and a JSON string
where `tags : List[str]` is declared fails with "tags" reported; the value
is never converted. -/
theorem wrong_typed_fields_rejected (raw1 raw2 : RawObj) (n : Int) (s : String)
    (h1 : rlookup raw1 "title" = some (JVal.num n))
    (h2 : rlookup raw2 "tags" = some (JVal.str s)) :
    (validateBlogPost raw1 = Except.error (badFields raw1) ∧
      "title" ∈ badFields raw1) ∧
    (validateBlogPost raw2 = Except.error (badFields raw2) ∧
      "tags" ∈ badFields raw2) := by
  have e1 : fTitle raw1 = none := by simp [fTitle, h1]
  have e2 : fTags raw2 = none := by simp [fTags, h2]
  exact ⟨validate_error_of_title e1, validate_error_of_tags e2⟩

theorem wrong_typed_fields_rejected_witness :
    (validateBlogPost [("title", JVal.num 7)] =
        Except.error (badFields [("title", JVal.num 7)]) ∧
      "title" ∈ badFields [("title", JVal.num 7)]) ∧
    (validateBlogPost [("tags", JVal.str "x")] =
        Except.error (badFields [("tags", JVal.str "x")]) ∧
      "tags" ∈ badFields [("tags", JVal.str "x")]) :=
  wrong_typed_fields_rejected [("title", JVal.num 7)] [("tags", JVal.str "x")]
    7 "x" (by rfl) (by rfl)

/-- C5 counterexample: a store error of 100 characters raised during the
POST /api/blog write is surfaced with `detail = str(e)` in full — the
message is not truncated, contradicting "never the full untruncated error
text". -/
theorem store_error_detail_untruncated :
    create_blog_post (Except.error (String.mk (List.replicate 100 'x'))) =
      ApiResp.httpException 500 (String.mk (List.replicate 100 'x')) := rfl

/-- C5 (amended): a store error raised during a POST write is surfaced as an
HTTP 500 whose detail is the complete, untruncated error text. -/
theorem store_error_full_detail (e : String) :
    create_blog_post (Except.error e) = ApiResp.httpException 500 e ∧
    create_partner_lead (Except.error e) = ApiResp.httpException 500 e :=
  ⟨rfl, rfl⟩

theorem store_error_full_detail_witness :
    create_blog_post (Except.error "boom") = ApiResp.httpException 500 "boom" ∧
    create_partner_lead (Except.error "boom") = ApiResp.httpException 500 "boom" :=
  store_error_full_detail "boom"

/-- C6: a POST /api/blog body whose title exceeds 180 characters fails with
a 422 validation response naming "title", and the store handle is returned
unchanged — no document is written. -/
theorem oversized_title_rejected_no_write (db : Option Store) (body : RawObj)
    (t : String) (hl : rlookup body "title" = some (JVal.str t))
    (ht : 180 < t.length) :
    post_blog db body = (ApiResp.unprocessable (badFields body), db) ∧
    "title" ∈ badFields body := by
  have e1 : fTitle body = none := by
    simp [fTitle, hl, Nat.not_le.mpr ht]
  obtain ⟨hv, hmem⟩ := validate_error_of_title e1
  exact ⟨by simp [post_blog, hv], hmem⟩

theorem oversized_title_rejected_no_write_witness :
    post_blog (some [])
        [("title", JVal.str (String.mk (List.replicate 181 'c')))] =
      (ApiResp.unprocessable
        (badFields [("title", JVal.str (String.mk (List.replicate 181 'c')))]),
       some []) ∧
    "title" ∈ badFields [("title", JVal.str (String.mk (List.replicate 181 'c')))] :=
  oversized_title_rejected_no_write (some [])
    [("title", JVal.str (String.mk (List.replicate 181 'c')))]
    (String.mk (List.replicate 181 'c')) (by rfl)
    (by set_option maxRecDepth 8192 in decide)

/-- C7: GET /api/blog with an uninitialized store handle returns the empty
sequence (HTTP 200 via normal return), for every limit and lang parameter,
without consulting the store. -/
theorem list_blog_posts_store_absent (limit : Nat) (lang : Option String) :
    list_blog_posts none limit lang = [] := rfl

theorem list_blog_posts_store_absent_witness :
    list_blog_posts none 10 none = [] :=
  list_blog_posts_store_absent 10 none

/-- C9: a stored blog document missing the required title, slug and content
keys (whose remaining fields decode) is not dropped on the read path: it is
rebuilt with the empty string substituted for each missing required field
and included in the listing. -/
theorem missing_required_fields_defaulted (d : RawObj)
    (h1 : rlookup d "title" = none) (h2 : rlookup d "slug" = none)
    (h3 : rlookup d "content" = none)
    (h4 : (fExcerpt (rebuildDoc d)).isSome = true)
    (h5 : (fCover (rebuildDoc d)).isSome = true)
    (h6 : (fTags (rebuildDoc d)).isSome = true)
    (h7 : (fLang (rebuildDoc d)).isSome = true) :
    ∃ p : BlogPost, reconstructBlogPost d = some p ∧
      p.title = "" ∧ p.slug = "" ∧ p.content = "" ∧
      ∀ limit, 0 < limit →
        p ∈ list_blog_posts (some [("blogpost", d)]) limit none := by
  obtain ⟨ex, hex⟩ := Option.isSome_iff_exists.mp h4
  obtain ⟨cv, hcv⟩ := Option.isSome_iff_exists.mp h5
  obtain ⟨tg, htg⟩ := Option.isSome_iff_exists.mp h6
  obtain ⟨lg, hlg⟩ := Option.isSome_iff_exists.mp h7
  have hT : fTitle (rebuildDoc d) = some "" := by
    simp [fTitle, rebuildDoc, rlookup, h1]
  have hS : fSlug (rebuildDoc d) = some "" := by
    simp [fSlug, rebuildDoc, rlookup, h2]
  have hC : fContent (rebuildDoc d) = some "" := by
    simp [fContent, rebuildDoc, rlookup, h3]
  have hrec : reconstructBlogPost d = some ⟨"", "", ex, "", cv, tg, lg⟩ := by
    unfold reconstructBlogPost validateBlogPost
    rw [hT, hS, hex, hC, hcv, htg, hlg]
    rfl
  refine ⟨⟨"", "", ex, "", cv, tg, lg⟩, hrec, rfl, rfl, rfl, ?_⟩
  intro limit hlim
  cases limit with
  | zero => exact absurd hlim (by simp)
  | succ n => simp [list_blog_posts, get_documents, matchesFilter, hrec]

theorem missing_required_fields_defaulted_witness :
    ∃ p : BlogPost,
      reconstructBlogPost [("lang", JVal.str "fi")] = some p ∧
      p.title = "" ∧ p.slug = "" ∧ p.content = "" ∧
      ∀ limit, 0 < limit →
        p ∈ list_blog_posts (some [("blogpost", [("lang", JVal.str "fi")])])
          limit none :=
  missing_required_fields_defaulted [("lang", JVal.str "fi")]
    (by rfl) (by rfl) (by rfl) (by rfl) (by rfl) (by rfl) (by rfl)

/-- C8: GET /test answers HTTP 200 with a record carrying exactly the six
keys, for every behaviour of the store handle — including one whose name
access and collection enumeration both raise — and the database status is
always a plain string: failures are converted to status text, never
propagated. -/
theorem test_endpoint_always_ok (db : Option DbHandle) (env : Env) :
    (test_endpoint db env).1 = 200 ∧
    (test_endpoint db env).2.map Prod.fst =
      ["backend", "database", "database_url", "database_name",
       "connection_status", "collections"] ∧
    ∃ s, rlookup (test_endpoint db env).2 "database" = some (JVal.str s) := by
  refine ⟨rfl, ?_, ?_⟩ <;>
  · rcases db with - | ⟨nm, lcn⟩
    · simp [test_endpoint, test_database, rset, rlookup]
    · rcases nm with e | nmo <;> rcases lcn with e2 | cols <;>
        simp [test_endpoint, test_database, rset, rlookup]

theorem test_endpoint_always_ok_witness :
    (test_endpoint (some ⟨Except.error "down", Except.error "down"⟩)
        ⟨none, none⟩).1 = 200 ∧
    (test_endpoint (some ⟨Except.error "down", Except.error "down"⟩)
        ⟨none, none⟩).2.map Prod.fst =
      ["backend", "database", "database_url", "database_name",
       "connection_status", "collections"] ∧
    ∃ s, rlookup (test_endpoint (some ⟨Except.error "down", Except.error "down"⟩)
        ⟨none, none⟩).2 "database" = some (JVal.str s) :=
  test_endpoint_always_ok (some ⟨Except.error "down", Except.error "down"⟩)
    ⟨none, none⟩

/-- C10 counterexample: with `DATABASE_URL` set to the empty string (the
variable IS set), the final `database_url` flag is "❌ Not Set" — Python
truthiness, not set-ness, decides the flag, so the stated iff fails. -/
theorem env_flag_empty_string_cex :
    (some "" : Option String).isSome = true ∧
    ¬ (rlookup (test_database none ⟨some "", none⟩) "database_url" =
        some (JVal.str "✅ Set")) := by
  refine ⟨rfl, ?_⟩
  intro h
  have h0 : rlookup (test_database none ⟨some "", none⟩) "database_url" =
      some (JVal.str "❌ Not Set") := rfl
  rw [h0] at h
  injection h with h1
  injection h1 with h2
  exact absurd h2 (by decide)

/-- C10 (amended): the final `database_url` / `database_name` flags depend
only on the truthiness of the corresponding environment variable (set and
non-empty), never on the store handle: the env-derived assignment overwrites
whatever the probe wrote earlier. -/
theorem env_flags_overwrite (db : Option DbHandle) (env : Env) :
    rlookup (test_database db env) "database_url" =
      some (JVal.str
        (if truthyEnv env.database_url then "✅ Set" else "❌ Not Set")) ∧
    rlookup (test_database db env) "database_name" =
      some (JVal.str
        (if truthyEnv env.database_name then "✅ Set" else "❌ Not Set")) := by
  rcases db with - | ⟨nm, lcn⟩
  · simp [test_database, rset, rlookup]
  · rcases nm with e | nmo <;> rcases lcn with e2 | cols <;>
      simp [test_database, rset, rlookup]

theorem env_flags_overwrite_witness :
    rlookup (test_database none ⟨some "x", none⟩) "database_url" =
      some (JVal.str
        (if truthyEnv (some "x") then "✅ Set" else "❌ Not Set")) ∧
    rlookup (test_database none ⟨some "x", none⟩) "database_name" =
      some (JVal.str
        (if truthyEnv none then "✅ Set" else "❌ Not Set")) :=
  env_flags_overwrite none ⟨some "x", none⟩
